import Mathlib

/-!
Shallow embedding of the plugin lifecycle and dispatch engine of the
repository (plugin-manager / base-plugin): the `PluginManager` registry
(`loadFromFile`, `loadDir`, `unloadUser`, `installUserPluginFromFile`,
`registerHandlers`, `unregisterHandlers`, `isPluginFile`) and the
`BasePlugin` routing layer (`doHandlerMessage`, `doHandlerCommand`,
`invokeHandlerMessage`, `invokeHandlerCommand`).

Modelling conventions:
* JS `Map` objects become functions `String → Option PluginRecord`
  (JS map keys are unique, so a function is a faithful view; the claims
  below only need lookup / set / delete).
* The dispatcher's registered update handlers become a list of numeric
  tokens; `addUpdateHandler` appends a fresh token, `removeUpdateHandler`
  removes it by identity.
* `async` failure (a rejected promise / thrown error) becomes
  `Except`. Since a thrown error leaves the manager's mutated fields in
  place, manager operations return `Except (ManagerErr × ManagerState)
  ManagerState`: the error also carries the state as left behind.
* A plugin instance's behaviour (whether its hooks / handlers resolve or
  reject, and with what) is data on the `BasePlugin` structure.
-/

deriving instance DecidableEq for Except

namespace UTGBox

/-- Scope of a plugin, source: `type PluginScope = "new_message" | "edit_message" | "both"`. -/
inductive PluginScope where
  | new_message
  | edit_message
  | both
deriving DecidableEq, Repr

/-- A plugin instance. Identity fields are from the abstract class
`BasePlugin`; the `Result` fields model what each overridable async
method does when invoked (resolve `.ok` or reject `.error msg`). -/
structure BasePlugin where
  command : Option String
  name : String
  description : String
  scope : PluginScope
  handlerCommandResult : Except String Unit
  handleMessageResult : Except String Unit
  onLoadResult : Except String Unit
  onUnloadResult : Except String Unit
deriving DecidableEq, Repr

/-- The constructible unit obtained from a module: `new PluginCtor(context)`
yields `newInstance`; `extendsBasePlugin` models the
`instance instanceof BasePlugin` check. -/
structure ConstructibleUnit where
  newInstance : BasePlugin
  extendsBasePlugin : Bool
deriving DecidableEq, Repr

/-- The evaluated module namespace: `mod.default` and `mod.Plugin`
(source: `const PluginCtor = mod.default ?? mod.Plugin`). -/
structure Module where
  default : Option ConstructibleUnit
  Plugin : Option ConstructibleUnit
deriving DecidableEq, Repr

/-- Source: `kind: "system" | "user"`. -/
inductive PluginKind where
  | system
  | user
deriving DecidableEq, Repr

/-- Source: `type PluginRecord` (plugin-manager). `handlerIds` is the list
of dispatcher tokens owned by the record. -/
structure PluginRecord where
  name : String
  filePath : String
  kind : PluginKind
  handlerIds : List Nat
  pluginInstance : BasePlugin
deriving DecidableEq, Repr

/-- The mutable fields of `PluginManager` together with the dispatcher's
handler table: `plugins` (by name), `pluginsByFile` (by source path),
`dispatcher` (tokens of registered update handlers), and a counter used
to mint fresh handler tokens. -/
structure ManagerState where
  plugins : String → Option PluginRecord
  pluginsByFile : String → Option PluginRecord
  dispatcher : List Nat
  nextId : Nat

/-- Errors thrown by the manager (source: `throw new Error(...)` sites),
plus `hookError` for an error re-raised from a plugin hook. -/
inductive ManagerErr where
  | noExport (filePath : String)
  | notAPlugin (filePath : String)
  | duplicateName (name : String)
  | hookError (msg : String)
  | notFound (name : String)
  | systemUnload (name : String)
  | invalidInput (fileName : String)
  | conflict (targetPath : String)
deriving DecidableEq, Repr

/-- JS `Map.set`: replace-or-insert under a key (function view). -/
def mapSet (m : String → Option PluginRecord) (k : String) (v : PluginRecord) :
    String → Option PluginRecord :=
  fun x => if x = k then some v else m x

/-- JS `Map.delete` (function view). -/
def mapDelete (m : String → Option PluginRecord) (k : String) :
    String → Option PluginRecord :=
  fun x => if x = k then none else m x

/-- Number of update handlers `registerHandlers` adds for an instance:
one command listener if `instance.command` is set, plus the scope-driven
`new_message` / `edit_message` listeners. -/
def handlerCount (p : BasePlugin) : Nat :=
  (if p.command.isSome then 1 else 0)
    + (if p.scope = .new_message ∨ p.scope = .both then 1 else 0)
    + (if p.scope = .edit_message ∨ p.scope = .both then 1 else 0)

/-- Source: `PluginManager.registerHandlers` — adds the instance's update
handlers to the dispatcher and returns their ids. Fresh tokens are minted
from `nextId`. -/
def registerHandlers (p : BasePlugin) (st : ManagerState) :
    List Nat × ManagerState :=
  let ids := List.range' st.nextId (handlerCount p)
  (ids,
    { st with
      dispatcher := st.dispatcher ++ ids
      nextId := st.nextId + handlerCount p })

/-- Source: `PluginManager.unregisterHandlers` — removes each recorded
handler from the dispatcher (`removeUpdateHandler` by identity). -/
def unregisterHandlers (ids : List Nat) (st : ManagerState) : ManagerState :=
  { st with dispatcher := st.dispatcher.filter (fun h => decide (h ∉ ids)) }

/-- Source: `PluginManager.loadFromFile`. Evaluates the module, resolves
`mod.default ?? mod.Plugin`, checks `instanceof BasePlugin`, checks name
uniqueness, registers handlers, runs `onLoad` (rolling the handlers back
on failure), and finally indexes the new record under both keys. -/
def loadFromFile (filePath : String) (mod : Module) (kind : PluginKind)
    (st : ManagerState) : Except (ManagerErr × ManagerState) ManagerState :=
  match mod.default.orElse (fun _ => mod.Plugin) with
  | none => .error (.noExport filePath, st)
  | some ctor =>
    let inst := ctor.newInstance
    if !ctor.extendsBasePlugin then
      .error (.notAPlugin filePath, st)
    else if (st.plugins inst.name).isSome then
      .error (.duplicateName inst.name, st)
    else
      let reg := registerHandlers inst st
      let handlerIds := reg.1
      let st1 := reg.2
      match inst.onLoadResult with
      | .error e => .error (.hookError e, unregisterHandlers handlerIds st1)
      | .ok _ =>
        let record : PluginRecord :=
          { name := inst.name, filePath := filePath, kind := kind,
            handlerIds := handlerIds, pluginInstance := inst }
        .ok { st1 with
              plugins := mapSet st1.plugins inst.name record
              pluginsByFile := mapSet st1.pluginsByFile filePath record }

/-- State left behind by a manager operation, whether it succeeded or
threw. -/
def resultState (r : Except (ManagerErr × ManagerState) ManagerState) :
    ManagerState :=
  match r with
  | .ok s => s
  | .error (_, s) => s

/-- Whether a manager operation succeeded. -/
def isOkResult (r : Except (ManagerErr × ManagerState) ManagerState) : Bool :=
  match r with
  | .ok _ => true
  | .error _ => false

/-- JS `s.startsWith(pre)` (data-level, so that it computes by kernel
reduction). -/
def strStartsWith (s pre : String) : Bool :=
  pre.data.isPrefixOf s.data

/-- JS `s.endsWith(suf)` (data-level). -/
def strEndsWith (s suf : String) : Bool :=
  suf.data.isSuffixOf s.data

/-- JS `s.trim()` (data-level): strip leading and trailing whitespace. -/
def jsTrim (s : String) : String :=
  String.mk
    (((s.data.dropWhile Char.isWhitespace).reverse.dropWhile
        Char.isWhitespace).reverse)

/-- Source: `isPluginFile` — `.d.ts` files are rejected, then `.ts`,
`.js`, `.mjs` are accepted. -/
def isPluginFile (fileName : String) : Bool :=
  if strEndsWith fileName ".d.ts" then
    false
  else
    strEndsWith fileName ".ts" || strEndsWith fileName ".js" ||
      strEndsWith fileName ".mjs"

/-- Node `path.basename`: the component after the last `/`. -/
def pathBasename (p : String) : String :=
  String.mk ((p.data.reverse.takeWhile (fun c => c != '/')).reverse)

/-- Node `path.join dir name` for a single child name. -/
def pathJoin (dir name : String) : String :=
  dir ++ "/" ++ name

/-- One entry of `fs.readdir(pluginDir, {withFileTypes: true})`. -/
structure DirEntry where
  name : String
  isFile : Bool
deriving DecidableEq, Repr

/-- Source: `PluginManager.loadDir` — iterate the directory entries,
skipping non-files, names that are not plugin files, and paths already
present in `pluginsByFile`; load each remaining file in order. A thrown
load error aborts the scan (there is no catch in `loadDir`). `mods` maps
a file path to the module its dynamic import evaluates to. -/
def loadDir (dir : String) (kind : PluginKind) (mods : String → Module)
    (entries : List DirEntry) (st : ManagerState) :
    Except (ManagerErr × ManagerState) ManagerState :=
  match entries with
  | [] => .ok st
  | e :: rest =>
    if !e.isFile then
      loadDir dir kind mods rest st
    else if !isPluginFile e.name then
      loadDir dir kind mods rest st
    else
      let filePath := pathJoin dir e.name
      if (st.pluginsByFile filePath).isSome then
        loadDir dir kind mods rest st
      else
        match loadFromFile filePath (mods filePath) kind st with
        | .error err => .error err
        | .ok st' => loadDir dir kind mods rest st'

/-- Source: `PluginManager.unloadUser` — look the record up by name,
reject missing names and system plugins, unregister its handlers, await
`onUnload`, then delete the record from both indices. An `onUnload`
rejection propagates before the deletions run. -/
def unloadUser (name : String) (st : ManagerState) :
    Except (ManagerErr × ManagerState) ManagerState :=
  match st.plugins name with
  | none => .error (.notFound name, st)
  | some record =>
    if record.kind ≠ .user then
      .error (.systemUnload name, st)
    else
      let st1 := unregisterHandlers record.handlerIds st
      match record.pluginInstance.onUnloadResult with
      | .error e => .error (.hookError e, st1)
      | .ok _ =>
        .ok { st1 with
              plugins := mapDelete st1.plugins record.name
              pluginsByFile := mapDelete st1.pluginsByFile record.filePath }

/-- Filesystem side effects performed by `installUserPluginFromFile`. -/
inductive FsEffect where
  | mkdirEff (dir : String)
  | copyEff (src : String) (dst : String)
deriving DecidableEq, Repr

/-- Source: `PluginManager.installUserPluginFromFile` — ensure the user
directory exists, validate the base name's extension, copy the file with
`COPYFILE_EXCL` (failing if the target exists, modelled by
`targetExists`), then load the copied file as a user plugin. Returns the
list of filesystem effects performed alongside the outcome. -/
def installUserPluginFromFile (userPluginDir sourcePath : String)
    (targetExists : Bool) (mod : Module) (st : ManagerState) :
    List FsEffect × Except (ManagerErr × ManagerState) (String × ManagerState) :=
  let fileName := pathBasename sourcePath
  if !isPluginFile fileName then
    ([.mkdirEff userPluginDir], .error (.invalidInput fileName, st))
  else
    let targetPath := pathJoin userPluginDir fileName
    if targetExists then
      ([.mkdirEff userPluginDir], .error (.conflict targetPath, st))
    else
      match loadFromFile targetPath mod .user st with
      | .error err =>
        ([.mkdirEff userPluginDir, .copyEff sourcePath targetPath], .error err)
      | .ok st' =>
        ([.mkdirEff userPluginDir, .copyEff sourcePath targetPath],
          .ok (targetPath, st'))

/-- An inbound event as the routing layer sees it: the raw text (possibly
absent, e.g. a media message) and the self-authored flag. -/
structure MessageContext where
  text : Option String
  isOutgoing : Bool
deriving DecidableEq, Repr

/-- Accumulating splitter for `tokenize`: collect maximal runs of
non-whitespace characters. -/
def wsTokensGo (cur : List Char) : List Char → List (List Char)
  | [] => if cur.isEmpty then [] else [cur.reverse]
  | c :: cs =>
    if c.isWhitespace then
      (if cur.isEmpty then wsTokensGo [] cs else cur.reverse :: wsTokensGo [] cs)
    else
      wsTokensGo (c :: cur) cs

/-- JS `text.match(/\S+/g) ?? []`: the whitespace-delimited tokens of a
string. -/
def tokenize (s : String) : List String :=
  (wsTokensGo [] s.data).map String.mk

/-- JS string coercion applied by `prefix + this.command` when building
the command-invocation check: a `null` command concatenates as the
literal text `"null"`. -/
def jsStringOfCommand : Option String → String
  | some s => s
  | none => "null"

/-- mtcute's `PropagationAction` (only `Continue` is used by the source). -/
inductive PropagationAction where
  | Continue
  | Stop
deriving DecidableEq, Repr

/-- Source: `BasePlugin.doHandlerMessage` — trim the text, test whether
some configured command prefix concatenated with `this.command` starts
the text, and invoke `handleMessage` only when that fails and the
message is not self-authored. Returns whether `handleMessage` was
invoked. -/
def doHandlerMessage (prefixes : List String) (plugin : BasePlugin)
    (msg : MessageContext) : Bool :=
  let text := jsTrim (msg.text.getD "")
  let isCommand :=
    prefixes.any (fun p => strStartsWith text (p ++ jsStringOfCommand plugin.command))
  !isCommand && !msg.isOutgoing

/-- Source: `BasePlugin.doHandlerCommand` — trim and tokenize the text,
destructure `[command, subCommand, ...args]`, and invoke
`handlerCommand(message, subCommand ?? '', args)` only for self-authored
messages. Returns `some (subCommand, args)` exactly when the handler is
invoked. -/
def doHandlerCommand (msg : MessageContext) : Option (String × List String) :=
  let text := jsTrim (msg.text.getD "")
  let tokens := tokenize text
  let subCommand := tokens.getD 1 ""
  let args := tokens.drop 2
  if msg.isOutgoing then some (subCommand, args) else none

/-- Source: `BasePlugin.invokeHandlerMessage` — await `doHandlerMessage`
(a rejection of the inner handler propagates: there is no catch), then
return `PropagationAction.Continue`. -/
def invokeHandlerMessage (prefixes : List String) (plugin : BasePlugin)
    (msg : MessageContext) : Except String PropagationAction :=
  match (if doHandlerMessage prefixes plugin msg
         then plugin.handleMessageResult else .ok ()) with
  | .error e => .error e
  | .ok _ => .ok .Continue

/-- Source: `BasePlugin.invokeHandlerCommand` — await `doHandlerCommand`
(a rejection of the inner handler propagates: there is no catch), then
return `PropagationAction.Continue`. -/
def invokeHandlerCommand (plugin : BasePlugin) (msg : MessageContext) :
    Except String PropagationAction :=
  match (if (doHandlerCommand msg).isSome
         then plugin.handlerCommandResult else .ok ()) with
  | .error e => .error e
  | .ok _ => .ok .Continue

/-! Concrete fixtures used by witnesses and counterexamples. -/

/-- A well-behaved command-capable plugin with keyword `ping`. -/
def pingPlugin : BasePlugin :=
  { command := some "ping", name := "ping", description := "pong",
    scope := .both, handlerCommandResult := .ok (),
    handleMessageResult := .ok (), onLoadResult := .ok (),
    onUnloadResult := .ok () }

/-- A plugin declared command-less (`command = null` in the source). -/
def nullCommandPlugin : BasePlugin :=
  { pingPlugin with command := none, name := "nocmd" }

/-- A plugin whose generic message handler rejects. -/
def throwingPlugin : BasePlugin :=
  { pingPlugin with name := "thrower", handleMessageResult := .error "boom" }

/-- A manager state with nothing loaded and no registered handlers. -/
def emptyState : ManagerState :=
  { plugins := fun _ => none, pluginsByFile := fun _ => none,
    dispatcher := [], nextId := 0 }

/-- A unit whose instantiation yields `pingPlugin` and passes the
`instanceof` check. -/
def goodUnit : ConstructibleUnit :=
  { newInstance := pingPlugin, extendsBasePlugin := true }

/-- A module exposing `goodUnit` as its default export. -/
def moduleDefault : Module := { default := some goodUnit, Plugin := none }

/-- A module with no default export but a named `Plugin` export. -/
def modulePluginOnly : Module := { default := none, Plugin := some goodUnit }

/-- A module with neither export. -/
def moduleEmpty : Module := { default := none, Plugin := none }

/-- A module whose plugin's `onLoad` hook rejects. -/
def moduleBadLoad : Module :=
  { default := some { newInstance := { pingPlugin with onLoadResult := .error "loadfail" },
                      extendsBasePlugin := true },
    Plugin := none }

/-- The record created by loading `pingPlugin` from `d/a.ts`. -/
def pingRecord : PluginRecord :=
  { name := "ping", filePath := "d/a.ts", kind := .user,
    handlerIds := [0, 1, 2], pluginInstance := pingPlugin }

/-- A state in which `pingRecord` is loaded and its three handlers are
registered. -/
def stWithPing : ManagerState :=
  { plugins := mapSet (fun _ => none) "ping" pingRecord,
    pluginsByFile := mapSet (fun _ => none) "d/a.ts" pingRecord,
    dispatcher := [0, 1, 2], nextId := 3 }

/-- A user record whose `onUnload` hook rejects. -/
def recBad : PluginRecord :=
  { name := "p", filePath := "fp", kind := .user, handlerIds := [0],
    pluginInstance :=
      { pingPlugin with name := "p", onUnloadResult := .error "unloadfail" } }

/-- A state holding `recBad` with its single handler registered. -/
def stBad : ManagerState :=
  { plugins := mapSet (fun _ => none) "p" recBad,
    pluginsByFile := mapSet (fun _ => none) "fp" recBad,
    dispatcher := [0], nextId := 1 }

/-- A well-behaved user record. -/
def recOk : PluginRecord :=
  { name := "q", filePath := "fq", kind := .user, handlerIds := [5],
    pluginInstance := { pingPlugin with name := "q" } }

/-- A state holding `recOk` with its single handler registered. -/
def stOk : ManagerState :=
  { plugins := mapSet (fun _ => none) "q" recOk,
    pluginsByFile := mapSet (fun _ => none) "fq" recOk,
    dispatcher := [5], nextId := 6 }

/-- Modelled from the spec's words, for comparison with the code's
check: "text starts with any configured prefix concatenated with the
plugin's own keyword" — under the spec's data model a plugin without a
declared keyword has no `prefix + keyword` string, so it can never
match. -/
def specCommandInvocation (prefixes : List String) (plugin : BasePlugin)
    (text : String) : Prop :=
  ∃ p ∈ prefixes, ∃ k, plugin.command = some k ∧
    strStartsWith text (p ++ k) = true

/-! Claim theorems. -/

/-- Removing exactly the freshly appended token range from the
dispatcher restores it: every previously registered token is below the
range. -/
theorem filter_out_fresh_range (d : List Nat) (s n : Nat)
    (hw : ∀ h ∈ d, h < s) :
    (d ++ List.range' s n).filter (fun h => decide (h ∉ List.range' s n)) = d := by
  rw [List.filter_append]
  have h1 : d.filter (fun h => decide (h ∉ List.range' s n)) = d := by
    apply List.filter_eq_self.mpr
    intro a ha
    simp only [decide_eq_true_eq]
    intro hmem
    have hm := List.mem_range'_1.mp hmem
    exact absurd (hw a ha) (by omega)
  have h2 : (List.range' s n).filter
      (fun h => decide (h ∉ List.range' s n)) = [] := by
    apply List.filter_eq_nil_iff.mpr
    intro a ha
    simp [ha]
  rw [h1, h2, List.append_nil]

/-- C3: for every event reaching a plugin's command subscription, the
command handler is invoked if and only if the event is self-authored
(`isOutgoing`); on invocation the trimmed text is split into
whitespace-delimited tokens, the first token is discarded, the second
token (or `""` if absent) is the sub-command and the rest the argument
list. In particular `"/ping"` sent by the operator yields sub-command
`""` and no arguments, while the same text from another user invokes
neither the command handler nor the generic handler. -/
theorem c3_command_invocation_iff_outgoing :
    ∀ (msg : MessageContext),
      ((doHandlerCommand msg).isSome = msg.isOutgoing) ∧
      (msg.isOutgoing = true →
        doHandlerCommand msg =
          some ((tokenize (jsTrim (msg.text.getD ""))).getD 1 "",
                (tokenize (jsTrim (msg.text.getD ""))).drop 2)) ∧
      doHandlerCommand { text := some "/ping", isOutgoing := true } =
        some ("", []) ∧
      doHandlerCommand { text := some "/ping", isOutgoing := false } = none ∧
      doHandlerMessage ["/"] pingPlugin
        { text := some "/ping", isOutgoing := false } = false := by
  intro msg
  refine ⟨?_, ?_, by decide, by decide, by decide⟩
  · cases h : msg.isOutgoing <;> simp [doHandlerCommand, h]
  · intro h
    simp [doHandlerCommand, h]

/-- Witness for C3 at a concrete input: `"/ping sub a b"` sent by the
operator invokes the command handler with sub-command `"sub"` and
arguments `["a", "b"]`. -/
theorem c3_witness :
    ((doHandlerCommand { text := some "/ping sub a b", isOutgoing := true }).isSome
      = true) ∧
    doHandlerCommand { text := some "/ping sub a b", isOutgoing := true } =
      some ("sub", ["a", "b"]) :=
  ⟨(c3_command_invocation_iff_outgoing _).1,
    ((c3_command_invocation_iff_outgoing _).2.1 rfl).trans (by decide)⟩

/-- C10: for a plugin declared command-less (`command = null`), the
command-invocation check of the generic handler concatenates each prefix
with the string `"null"` (JS coercion), so any event whose trimmed text
starts with a prefix followed by the literal characters `null` is not
delivered to `handleMessage`. -/
theorem c10_null_command_text_suppressed :
    ∀ (prefixes : List String) (plugin : BasePlugin) (msg : MessageContext)
      (p : String),
      plugin.command = none →
      p ∈ prefixes →
      strStartsWith (jsTrim (msg.text.getD "")) (p ++ "null") = true →
      doHandlerMessage prefixes plugin msg = false := by
  intro prefixes plugin msg p hc hp hs
  have hany : prefixes.any
      (fun q => strStartsWith (jsTrim (msg.text.getD ""))
        (q ++ jsStringOfCommand plugin.command)) = true := by
    rw [List.any_eq_true]
    exact ⟨p, hp, by rw [hc]; exact hs⟩
  simp [doHandlerMessage, hany]

/-- Witness for C10: with the default prefix `/`, a message `"/null hi"`
authored by another user is not delivered to the command-less plugin's
`handleMessage`. -/
theorem c10_witness :
    ("/" : String) ∈ ["/"] ∧
    strStartsWith (jsTrim "/null hi") ("/" ++ "null") = true ∧
    doHandlerMessage ["/"] nullCommandPlugin
      { text := some "/null hi", isOutgoing := false } = false :=
  ⟨by decide, by decide,
    c10_null_command_text_suppressed ["/"] nullCommandPlugin
      { text := some "/null hi", isOutgoing := false } "/" rfl (by decide)
      (by decide)⟩

/-- Counterexample to C4 as stated: for the command-less plugin, the
event `"/null hello"` authored by another user is not a command
invocation of the plugin under the claim's reading (the plugin has no
keyword) and is not self-authored, so the claim requires `handleMessage`
to be invoked — but the code does not invoke it (the check concatenates
the prefix with the literal `"null"`). -/
theorem c4_counterexample :
    nullCommandPlugin.command = none ∧
    ¬ specCommandInvocation ["/"] nullCommandPlugin (jsTrim "/null hello") ∧
    (({ text := some "/null hello", isOutgoing := false } :
        MessageContext).isOutgoing = false) ∧
    doHandlerMessage ["/"] nullCommandPlugin
      { text := some "/null hello", isOutgoing := false } = false := by
  refine ⟨rfl, ?_, rfl, by decide⟩
  rintro ⟨p, hp, k, hk, hs⟩
  simp [nullCommandPlugin, pingPlugin] at hk

/-- C4 amended (restricted to plugins that declare a command keyword,
which is what the counterexample forces): for every such plugin,
`handleMessage` is invoked if and only if the trimmed text does not
start with any configured prefix concatenated with the plugin's keyword
and the event is not self-authored. -/
theorem c4_generic_handler_gate :
    ∀ (prefixes : List String) (plugin : BasePlugin) (k : String)
      (msg : MessageContext),
      plugin.command = some k →
      (doHandlerMessage prefixes plugin msg = true ↔
        (¬ specCommandInvocation prefixes plugin (jsTrim (msg.text.getD "")) ∧
          msg.isOutgoing = false)) := by
  intro prefixes plugin k msg hk
  simp only [doHandlerMessage, specCommandInvocation, hk, jsStringOfCommand,
    Bool.and_eq_true, Bool.not_eq_true', List.any_eq_false, Option.some.injEq]
  constructor
  · rintro ⟨hany, hout⟩
    refine ⟨?_, hout⟩
    rintro ⟨p, hp, k', hk', hs⟩
    subst hk'
    exact absurd hs (by simp [hany p hp])
  · rintro ⟨hno, hout⟩
    refine ⟨?_, hout⟩
    intro p hp
    by_contra hs
    exact hno ⟨p, hp, k, rfl, by simpa using hs⟩

/-- Witness for C4 (amended) at the spec's own example: text `"hello"`
with prefix `/` and keyword `ping` — authored by another user it invokes
the generic handler; authored by the operator it does not. -/
theorem c4_witness :
    doHandlerMessage ["/"] pingPlugin
      { text := some "hello", isOutgoing := false } = true ∧
    doHandlerMessage ["/"] pingPlugin
      { text := some "hello", isOutgoing := true } = false :=
  ⟨(c4_generic_handler_gate ["/"] pingPlugin "ping"
      { text := some "hello", isOutgoing := false } rfl).mpr
      ⟨by rintro ⟨p, hp, k, hk, hs⟩
          simp at hp
          subst hp
          simp [pingPlugin] at hk
          subst hk
          exact absurd hs (by decide),
        rfl⟩,
    by decide⟩

/-- Counterexample to C2 as stated: an error raised inside the generic
message handler is not caught by the routing wrapper — the wrapper's
result is the error itself, not the "handling continues" signal. -/
theorem c2_counterexample :
    invokeHandlerMessage ["/"] throwingPlugin
      { text := some "hello", isOutgoing := false } = .error "boom" ∧
    invokeHandlerMessage ["/"] throwingPlugin
      { text := some "hello", isOutgoing := false } ≠
      .ok PropagationAction.Continue := by
  exact ⟨by decide, by decide⟩

/-- C2 amended: the routing wrappers return the "handling continues"
propagation signal whenever the inner handler resolves (or is not
invoked at all); an error raised inside the invoked handler propagates
out of the wrapper uncaught, as that same error. -/
theorem c2_handler_error_propagates :
    ∀ (prefixes : List String) (plugin : BasePlugin) (msg : MessageContext),
      (plugin.handleMessageResult = .ok () →
        invokeHandlerMessage prefixes plugin msg = .ok .Continue) ∧
      (plugin.handlerCommandResult = .ok () →
        invokeHandlerCommand plugin msg = .ok .Continue) ∧
      (∀ e, doHandlerMessage prefixes plugin msg = true →
        plugin.handleMessageResult = .error e →
        invokeHandlerMessage prefixes plugin msg = .error e) ∧
      (∀ e, (doHandlerCommand msg).isSome = true →
        plugin.handlerCommandResult = .error e →
        invokeHandlerCommand plugin msg = .error e) := by
  intro prefixes plugin msg
  refine ⟨?_, ?_, ?_, ?_⟩
  · intro h
    cases hd : doHandlerMessage prefixes plugin msg <;>
      simp [invokeHandlerMessage, hd, h]
  · intro h
    cases hd : (doHandlerCommand msg).isSome <;>
      simp [invokeHandlerCommand, hd, h]
  · intro e hd h
    simp [invokeHandlerMessage, hd, h]
  · intro e hd h
    simp [invokeHandlerCommand, hd, h]

/-- Witness for C2 (amended): a resolving handler yields the Continue
signal; a rejecting handler's error comes back out of the wrapper. -/
theorem c2_witness :
    invokeHandlerMessage ["/"] pingPlugin
      { text := some "hola", isOutgoing := false } =
      .ok PropagationAction.Continue ∧
    invokeHandlerMessage ["/"] throwingPlugin
      { text := some "hi there", isOutgoing := false } = .error "boom" :=
  ⟨(c2_handler_error_propagates ["/"] pingPlugin
      { text := some "hola", isOutgoing := false }).1 rfl,
    (c2_handler_error_propagates ["/"] throwingPlugin
      { text := some "hi there", isOutgoing := false }).2.2.1 "boom"
      (by decide) rfl⟩

/-- C1: every failed load (no export, constructor result not a plugin,
duplicate name, or a rejecting `onLoad` hook) leaves both indices and
the dispatcher's handler table exactly as they were: no partial record
and no dangling subscription survives the attempt. The freshness
hypothesis says every registered token is below the mint counter, which
holds of every reachable state. -/
theorem c1_load_failure_rollback :
    ∀ (filePath : String) (mod : Module) (kind : PluginKind)
      (st : ManagerState) (e : ManagerErr) (st' : ManagerState),
      (∀ h ∈ st.dispatcher, h < st.nextId) →
      loadFromFile filePath mod kind st = .error (e, st') →
      st'.plugins = st.plugins ∧ st'.pluginsByFile = st.pluginsByFile ∧
        st'.dispatcher = st.dispatcher := by
  intro filePath mod kind st e st' hwf h
  unfold loadFromFile at h
  dsimp only at h
  split at h
  · simp only [Except.error.injEq, Prod.mk.injEq] at h
    obtain ⟨-, hst⟩ := h
    subst hst
    exact ⟨rfl, rfl, rfl⟩
  · split at h
    · simp only [Except.error.injEq, Prod.mk.injEq] at h
      obtain ⟨-, hst⟩ := h
      subst hst
      exact ⟨rfl, rfl, rfl⟩
    · split at h
      · simp only [Except.error.injEq, Prod.mk.injEq] at h
        obtain ⟨-, hst⟩ := h
        subst hst
        exact ⟨rfl, rfl, rfl⟩
      · split at h
        · simp only [Except.error.injEq, Prod.mk.injEq] at h
          obtain ⟨-, hst⟩ := h
          subst hst
          refine ⟨rfl, rfl, ?_⟩
          simp only [unregisterHandlers, registerHandlers]
          exact filter_out_fresh_range st.dispatcher st.nextId _ hwf
        · exact absurd h (by simp)

/-- Witness for C1: loading a module whose `onLoad` hook rejects, from
the empty state, fails and leaves both indices and the dispatcher
exactly empty again. -/
theorem c1_witness :
    (resultState (loadFromFile "f" moduleBadLoad .user emptyState)).plugins =
      emptyState.plugins ∧
    (resultState (loadFromFile "f" moduleBadLoad .user emptyState)).pluginsByFile =
      emptyState.pluginsByFile ∧
    (resultState (loadFromFile "f" moduleBadLoad .user emptyState)).dispatcher =
      emptyState.dispatcher :=
  c1_load_failure_rollback "f" moduleBadLoad .user emptyState
    (.hookError "loadfail")
    (resultState (loadFromFile "f" moduleBadLoad .user emptyState))
    (by decide) rfl

/-- C7: when the resolved export instantiates (passing the `instanceof`
check) to a plugin whose name is already indexed, the load fails with
the duplicate-name error and returns the state unchanged: no
subscription was registered, the first record is untouched under both
keys, and the name still maps to exactly the record it mapped to
before. -/
theorem c7_duplicate_name_rejected :
    ∀ (filePath : String) (mod : Module) (kind : PluginKind)
      (st : ManagerState) (ctor : ConstructibleUnit),
      mod.default.orElse (fun _ => mod.Plugin) = some ctor →
      ctor.extendsBasePlugin = true →
      (st.plugins ctor.newInstance.name).isSome = true →
      loadFromFile filePath mod kind st =
        .error (.duplicateName ctor.newInstance.name, st) := by
  intro filePath mod kind st ctor hor hext hdup
  unfold loadFromFile
  rw [hor]
  dsimp only
  simp [hext, hdup]

/-- Witness for C7: with the `ping` record already loaded from one file,
loading a second file that exports a plugin also named `ping` fails with
the duplicate-name error and leaves the state untouched. -/
theorem c7_witness :
    (stWithPing.plugins goodUnit.newInstance.name).isSome = true ∧
    loadFromFile "d/b.ts" moduleDefault .user stWithPing =
      .error (.duplicateName goodUnit.newInstance.name, stWithPing) :=
  ⟨by decide,
    c7_duplicate_name_rejected "d/b.ts" moduleDefault .user stWithPing goodUnit
      rfl rfl (by decide)⟩

/-- Resolution helper: the JS expression `mod.default ?? mod.Plugin` is
absent exactly when both exports are absent. -/
theorem module_resolution_none_iff (mod : Module) :
    mod.default.orElse (fun _ => mod.Plugin) = none ↔
      mod.default = none ∧ mod.Plugin = none := by
  cases mod.default <;> simp [Option.orElse]

/-- Helper: `loadFromFile` throws the no-export error exactly when the
resolved export is absent. -/
theorem loadFromFile_noExport_iff (filePath : String) (mod : Module)
    (kind : PluginKind) (st : ManagerState) :
    (∃ st', loadFromFile filePath mod kind st =
        .error (.noExport filePath, st')) ↔
      mod.default.orElse (fun _ => mod.Plugin) = none := by
  constructor
  · rintro ⟨st', h⟩
    cases hor : mod.default.orElse (fun _ => mod.Plugin) with
    | none => rfl
    | some ctor =>
      exfalso
      unfold loadFromFile at h
      rw [hor] at h
      dsimp only at h
      split at h
      · simp at h
      · split at h
        · simp at h
        · split at h
          · simp at h
          · simp at h
  · intro hor
    exact ⟨st, by unfold loadFromFile; rw [hor]⟩

/-- Counterexample to C6 as stated: a module with no default export but
a named `Plugin` export does not fail — the source falls back to
`mod.Plugin` (`mod.default ?? mod.Plugin`), so "fails iff no default
export" is false. -/
theorem c6_counterexample :
    modulePluginOnly.default = none ∧
    isOkResult (loadFromFile "f" modulePluginOnly .user emptyState) = true :=
  ⟨rfl, by decide⟩

/-- C6 amended: the load fails with the no-export error if and only if
the module has neither a default export nor a named `Plugin` export;
when a default export is present it takes precedence and is the unit
that gets instantiated (the stored record's instance is the one the
default export constructs). -/
theorem c6_export_resolution :
    ∀ (filePath : String) (mod : Module) (kind : PluginKind)
      (st : ManagerState),
      ((∃ st', loadFromFile filePath mod kind st =
          .error (.noExport filePath, st')) ↔
        (mod.default = none ∧ mod.Plugin = none)) ∧
      (∀ u st', mod.default = some u →
        loadFromFile filePath mod kind st = .ok st' →
        ∃ rec, st'.plugins u.newInstance.name = some rec ∧
          rec.pluginInstance = u.newInstance) := by
  intro filePath mod kind st
  constructor
  · rw [loadFromFile_noExport_iff]
    exact module_resolution_none_iff mod
  · intro u st' hu hok
    have hor : mod.default.orElse (fun _ => mod.Plugin) = some u := by
      rw [hu]; rfl
    unfold loadFromFile at hok
    rw [hor] at hok
    dsimp only at hok
    split at hok
    · exact absurd hok (by simp)
    · split at hok
      · exact absurd hok (by simp)
      · split at hok
        · exact absurd hok (by simp)
        · simp only [Except.ok.injEq] at hok
          subst hok
          refine ⟨{ name := u.newInstance.name, filePath := filePath,
                    kind := kind,
                    handlerIds := (registerHandlers u.newInstance st).1,
                    pluginInstance := u.newInstance }, ?_, rfl⟩
          simp [mapSet]

/-- Witness for C6 (amended): with neither export the load fails with
the no-export error; with a default export the loaded record's instance
is the default export's instantiation. -/
theorem c6_witness :
    (∃ st', loadFromFile "g" moduleEmpty .user emptyState =
        .error (.noExport "g", st')) ∧
    (∃ rec, (resultState (loadFromFile "g" moduleDefault .user
        emptyState)).plugins "ping" = some rec ∧
      rec.pluginInstance = pingPlugin) :=
  ⟨(c6_export_resolution "g" moduleEmpty .user emptyState).1.mpr ⟨rfl, rfl⟩,
    (c6_export_resolution "g" moduleDefault .user emptyState).2 goodUnit
      (resultState (loadFromFile "g" moduleDefault .user emptyState)) rfl rfl⟩

/-- Counterexample to C5 as stated: unloading a user plugin whose
`onUnload` hook rejects does not remove the record — the error
propagates before the two index deletions run, so the record is still
present in both indices afterwards. -/
theorem c5_counterexample :
    isOkResult (unloadUser "p" stBad) = false ∧
    (resultState (unloadUser "p" stBad)).plugins "p" = some recBad ∧
    (resultState (unloadUser "p" stBad)).pluginsByFile "fp" = some recBad :=
  ⟨by decide, by decide, by decide⟩

/-- C5 amended: unload-by-name of an existing user record always revokes
the record's subscriptions first; when the unload hook resolves the
record is then removed from both indices, but when the hook rejects the
error propagates and the record remains in both indices — index removal
happens only on hook success. -/
theorem c5_unload_semantics :
    ∀ (name : String) (st : ManagerState) (record : PluginRecord),
      st.plugins name = some record →
      record.name = name →
      record.kind = .user →
      ((resultState (unloadUser name st)).dispatcher =
        st.dispatcher.filter (fun h => decide (h ∉ record.handlerIds))) ∧
      (∀ e, record.pluginInstance.onUnloadResult = .error e →
        unloadUser name st =
          .error (.hookError e, unregisterHandlers record.handlerIds st)) ∧
      (record.pluginInstance.onUnloadResult = .ok () →
        isOkResult (unloadUser name st) = true ∧
        (resultState (unloadUser name st)).plugins name = none ∧
        (resultState (unloadUser name st)).pluginsByFile record.filePath =
          none) := by
  intro name st record hlook hname hkind
  unfold unloadUser
  rw [hlook]
  dsimp only
  simp only [hkind, ne_eq, not_true_eq_false, if_false, ite_false]
  refine ⟨?_, ?_, ?_⟩
  · cases hu : record.pluginInstance.onUnloadResult with
    | error e => rfl
    | ok u => rfl
  · intro e hu
    rw [hu]
  · intro hu
    rw [hu]
    refine ⟨rfl, ?_, ?_⟩
    · simp [resultState, mapDelete, hname]
    · simp [resultState, mapDelete]

/-- Witness for C5 (amended): unloading the well-behaved record `recOk`
succeeds, removes it from both indices, and leaves the dispatcher
empty. -/
theorem c5_witness :
    isOkResult (unloadUser "q" stOk) = true ∧
    (resultState (unloadUser "q" stOk)).plugins "q" = none ∧
    (resultState (unloadUser "q" stOk)).pluginsByFile "fq" = none ∧
    (resultState (unloadUser "q" stOk)).dispatcher = [] := by
  obtain ⟨hd, -, hok⟩ := c5_unload_semantics "q" stOk recOk (by decide) rfl rfl
  obtain ⟨h1, h2, h3⟩ := hok rfl
  exact ⟨h1, h2, h3, by rw [hd]; decide⟩

/-- Helper for C8: a single load never disturbs the source-path index at
any other path, whether it succeeds or fails. -/
theorem loadFromFile_preserves_other_paths (p filePath : String)
    (mod : Module) (kind : PluginKind) (st : ManagerState)
    (hne : p ≠ filePath) :
    (resultState (loadFromFile filePath mod kind st)).pluginsByFile p =
      st.pluginsByFile p := by
  unfold loadFromFile
  split
  · rfl
  · dsimp only
    split
    · rfl
    · split
      · rfl
      · split
        · rfl
        · simp [resultState, mapSet, hne, registerHandlers]

/-- C8: during a directory scan, a direct-child file whose path is
already present in the source-path index is skipped, and no step of the
scan ever overwrites the record indexed under that path: after the scan
(whether it completed or aborted on a load error) the path still maps to
exactly the record it mapped to before. -/
theorem c8_rescan_preserves_indexed_paths :
    ∀ (dir : String) (kind : PluginKind) (mods : String → Module)
      (entries : List DirEntry) (st : ManagerState) (p : String),
      (st.pluginsByFile p).isSome = true →
      (resultState (loadDir dir kind mods entries st)).pluginsByFile p =
        st.pluginsByFile p := by
  intro dir kind mods entries
  induction entries with
  | nil => intro st p h; rfl
  | cons e rest ih =>
    intro st p h
    unfold loadDir
    split
    · exact ih st p h
    · split
      · exact ih st p h
      · dsimp only
        split
        · exact ih st p h
        · rename_i hnotin
          have hne : p ≠ pathJoin dir e.name := by
            intro hpe
            rw [hpe] at h
            exact hnotin h
          cases hres : loadFromFile (pathJoin dir e.name)
              (mods (pathJoin dir e.name)) kind st with
          | error err =>
            have hpres := loadFromFile_preserves_other_paths p
              (pathJoin dir e.name) (mods (pathJoin dir e.name)) kind st hne
            rw [hres] at hpres
            exact hpres
          | ok st' =>
            have hpres := loadFromFile_preserves_other_paths p
              (pathJoin dir e.name) (mods (pathJoin dir e.name)) kind st hne
            rw [hres] at hpres
            simp only [resultState] at hpres
            have h' : (st'.pluginsByFile p).isSome = true := by
              rw [hpres]; exact h
            calc (resultState (loadDir dir kind mods rest st')).pluginsByFile p
                = st'.pluginsByFile p := ih st' p h'
              _ = st.pluginsByFile p := hpres

/-- Witness for C8: re-scanning the directory containing the already
loaded `d/a.ts` (whose module would collide with the loaded `ping`
plugin if it were loaded again) leaves the path's record untouched: the
file is skipped. -/
theorem c8_witness :
    (stWithPing.pluginsByFile "d/a.ts").isSome = true ∧
    (resultState (loadDir "d" .user (fun _ => moduleDefault)
        [{ name := "a.ts", isFile := true }] stWithPing)).pluginsByFile
        "d/a.ts" =
      stWithPing.pluginsByFile "d/a.ts" :=
  ⟨by decide,
    c8_rescan_preserves_indexed_paths "d" .user (fun _ => moduleDefault)
      [{ name := "a.ts", isFile := true }] stWithPing "d/a.ts" (by decide)⟩

/-- C9: installing a source file whose base name lacks an accepted
extension (`.ts`, `.js`, `.mjs`, with `.d.ts` excluded) fails with the
invalid-input error after only the `mkdir` of the user directory: no
copy into the user directory is performed and the manager state — hence
the set of records — is unchanged. -/
theorem c9_install_rejects_bad_extension :
    ∀ (userDir sourcePath : String) (targetExists : Bool) (mod : Module)
      (st : ManagerState),
      isPluginFile (pathBasename sourcePath) = false →
      (installUserPluginFromFile userDir sourcePath targetExists mod st).1 =
        [FsEffect.mkdirEff userDir] ∧
      (installUserPluginFromFile userDir sourcePath targetExists mod st).2 =
        .error (.invalidInput (pathBasename sourcePath), st) := by
  intro userDir sourcePath targetExists mod st h
  unfold installUserPluginFromFile
  simp [h]

/-- Witness for C9: installing the declaration-only file
`plugins/x.d.ts` fails with the invalid-input error, performs no copy,
and leaves the empty state unchanged. -/
theorem c9_witness :
    isPluginFile (pathBasename "plugins/x.d.ts") = false ∧
    (installUserPluginFromFile "u" "plugins/x.d.ts" false moduleDefault
        emptyState).1 = [FsEffect.mkdirEff "u"] ∧
    (installUserPluginFromFile "u" "plugins/x.d.ts" false moduleDefault
        emptyState).2 =
      .error (.invalidInput (pathBasename "plugins/x.d.ts"), emptyState) :=
  ⟨by decide,
    (c9_install_rejects_bad_extension "u" "plugins/x.d.ts" false moduleDefault
      emptyState (by decide)).1,
    (c9_install_rejects_bad_extension "u" "plugins/x.d.ts" false moduleDefault
      emptyState (by decide)).2⟩

end UTGBox
